import Mathlib

set_option maxRecDepth 4000

/-!
Verification development for the tiktok-profile-scraper repository.

The definitions below are a shallow embedding of the repository's
JavaScript source:

* `src/api.js` — block detection (`isBlocked`), the session-rotating
  request engine (`rotateSession` and the engine effects of
  `scrapeUserProfile`, modelled as `fetchStep`/`runFetches`), and the
  normalization pipeline of `parseProfileFromHtml` (`safeNumber`,
  `extractBio`, `extractBioLink`, `timestampToDate`,
  `calculateAccountAge`, engagement-rate derivation,
  `calculateDataQualityScore`), modelled from the point where the raw
  user/stats subtree has been located in the page (the PayloadLocator
  HTML scan is abstracted as the input of `parseProfile`).
* the v2 signer module (the file the engine's imports resolve to:
  it is the only signer exporting `detectProxyRegion` and the
  options-object `buildQueryParams` that `api.js` uses) — the
  user-agent pools, `getRandomUserAgent`, `generateDeviceId`, and the
  user-agent-derived part of `buildHeaders`.

Modelling conventions:
* JavaScript runtime values that can be `null`/`undefined`/number/string
  are embedded as `JsVal`; counts are integers (`Int`), matching the
  integral stat values the platform serves.
* Randomness (`Math.random`, `crypto.randomBytes`) is passed in
  explicitly (`Entropy`, index/coin arguments), so every function is a
  pure function of its inputs.
* `Math.floor` on real-valued division is `Int.fdiv`; `Math.round` is
  `jsRound` (floor of x + 1/2, JavaScript's round-half-up).
* The engagement-rate arithmetic is carried out over `ℚ` in place of
  IEEE doubles; the verified properties only depend on the sign/bound
  guard that follows the arithmetic, not on rounding error.
* `new Date(ms)` is valid only for |ms| ≤ 8.64e15; beyond that range
  `getFullYear()` is NaN, both year comparisons are false, and
  arithmetic on the date yields NaN — `calculateAccountAge` models this
  with the `JsNum.nan` result, and `timestampToDate` with `none`
  (`toISOString` throws on an invalid date and the `catch` returns null).
-/

namespace TikTokScraper

/-- Model of a JavaScript value as it appears in the raw user/stats
subtrees: `null`, `undefined`, a (integral) number, or a string. -/
inductive JsVal where
  | null : JsVal
  | undef : JsVal
  | num : Int → JsVal
  | str : String → JsVal
deriving DecidableEq

/-- A JavaScript number that may be NaN (needed for the account-age
computation on out-of-range dates). -/
inductive JsNum where
  | nan : JsNum
  | int : Int → JsNum
deriving DecidableEq

/-- Leading decimal digits of a character list, `none` if there are none.
Helper for the embedding of `parseInt(val, 10)`. -/
def leadingDigits (l : List Char) : Option Nat :=
  let ds := l.takeWhile Char.isDigit
  if ds.isEmpty then none
  else some (ds.foldl (fun a c => a * 10 + (c.toNat - 48)) 0)

/-- Embedding of JavaScript `parseInt(s, 10)`: skip leading whitespace,
an optional sign, then the longest run of decimal digits; NaN (here
`none`) if no digits follow. Trailing garbage is ignored. -/
def parseIntJS (s : String) : Option Int :=
  let l := s.data.dropWhile Char.isWhitespace
  match l with
  | '-' :: rest => (leadingDigits rest).map (fun n => -(n : Int))
  | '+' :: rest => (leadingDigits rest).map (fun n => (n : Int))
  | _ => (leadingDigits l).map (fun n => (n : Int))

/-- The options object of `safeNumber` (`{ field = '', max = Infinity }`);
`max = none` models the `Infinity` default. -/
structure NumOpts where
  field : String
  max : Option Int
deriving DecidableEq

/-- `v ≤ max`, where `max = none` is `Infinity`. -/
def leMax (v : Int) : Option Int → Bool
  | none => true
  | some m => v ≤ m

/-- Embedding of `safeNumber` (src/api.js): null/undefined → null;
non-negative number → the value unless it exceeds `max`; negative
number → 32-bit overflow recovery `v + 4294967296`, then rejected to
null when the recovered value exceeds the field-specific realism
ceiling (followers: 1e9, likes: 1e14); string → `parseInt(s, 10)`
checked against `max`, null when the parse is NaN. -/
def safeNumber (val : JsVal) (opts : NumOpts) : Option Int :=
  match val with
  | .null => none
  | .undef => none
  | .num v =>
    if 0 ≤ v then
      if leMax v opts.max then some v else none
    else
      let recovered := v + 4294967296
      if opts.field = "followers" ∧ 1000000000 < recovered then none
      else if opts.field = "likes" ∧ 100000000000000 < recovered then none
      else some recovered
  | .str s =>
    match parseIntJS s with
    | none => none
    | some parsed => if leMax parsed opts.max then some parsed else none

/-- Bool-valued substring test on character lists (used to embed the
`String.prototype.includes` calls and the regex literal searches). -/
def containsSub (s pat : List Char) : Bool :=
  match s with
  | [] => pat.isEmpty
  | c :: t => pat.isPrefixOf (c :: t) || containsSub t pat

/-- Case-insensitive substring test on strings: embeds regex tests of the
form `/pat/i.test(s)` for a literal `pat` (written lowercase). -/
def containsCI (s pat : String) : Bool :=
  containsSub (s.data.map Char.toLower) (pat.data.map Char.toLower)

/-- Strip a case-insensitive literal from the front of `s`; on success,
return the consumed characters (original case) and the remainder. -/
def stripCIPrefix (pat s : List Char) : Option (List Char × List Char) :=
  match pat, s with
  | [], rest => some ([], rest)
  | _ :: _, [] => none
  | p :: ps, c :: cs =>
    if c.toLower = p then
      match stripCIPrefix ps cs with
      | some (tk, rest) => some (c :: tk, rest)
      | none => none
    else none

/-- Try to read `http://` or `https://` (case-insensitively, as the `i`
flag of the bioLink regex demands) at the head of the list; returns the
consumed scheme and the remainder. -/
def trySchemeCI (s : List Char) : Option (List Char × List Char) :=
  match stripCIPrefix "http://".data s with
  | some r => some r
  | none => stripCIPrefix "https://".data s

/-- A character of the regex class `[\w.-]` (ASCII word chars, dot, dash). -/
def isWordDotDash (c : Char) : Bool :=
  c.isAlphanum || c = '_' || c = '.' || c = '-'

/-- Do the next two characters exist and match `[a-z]` under the `i` flag? -/
def twoLetters : List Char → Bool
  | a :: b :: _ => a.isAlpha && b.isAlpha
  | _ => false

/-- Success condition of the domain part `[\w.-]+\.[a-z]{2,}` of the
bio-URL regex, scanning from the position just after the scheme: there
must be a dot, preceded by at least one `[\w.-]` character (`seen`
records that) and followed by at least two ASCII letters. -/
def findDomainSplit : List Char → Bool → Bool
  | [], _ => false
  | c :: rest, seen =>
    if c = '.' && seen && twoLetters rest then true
    else if isWordDotDash c then findDomainSplit rest true
    else false

/-- Embedding of `bio.match(/https?:\/\/([\w.-]+\.[a-z]{2,}[^\s]*)/i)`:
scan left to right for a scheme whose tail satisfies the domain shape;
the match (the leftmost one, as in JavaScript) extends greedily through
the trailing `[^\s]*` to the end of the contiguous non-whitespace run. -/
def bioUrlMatch : List Char → Option (List Char)
  | [] => none
  | c :: rest =>
    match trySchemeCI (c :: rest) with
    | some (tk, after) =>
      if findDomainSplit after false then
        some (tk ++ after.takeWhile (fun ch => !ch.isWhitespace))
      else bioUrlMatch rest
    | none => bioUrlMatch rest

/-- Model of the WHATWG `URL` constructor (a platform builtin, not
repository code): construction succeeds for an `http://`/`https://` URL
whose host (the part before any `/?#:`) is nonempty and made of ordinary
host characters. This is the slice of URL parsing the repository's
candidates can reach. -/
def urlCtorOk (u : String) : Bool :=
  match trySchemeCI u.data with
  | some (_, rest) =>
    let host := rest.takeWhile (fun c => !(c = '/' || c = '?' || c = '#' || c = ':'))
    !host.isEmpty && host.all (fun c => c.isAlphanum || c = '.' || c = '-' || c = '_')
  | none => false

/-- Embedding of `isValidUrl` (src/api.js): falsy/non-string → false;
otherwise attempt URL construction, prefixing `https://` when the
candidate does not start with `http` (case-sensitive, as in
`url.startsWith('http')`). -/
def isValidUrl (url : String) : Bool :=
  if url = "" then false
  else urlCtorOk (if "http".data.isPrefixOf url.data then url else "https://" ++ url)

/-- The `bioLink` field of the raw user subtree: absent/other, an object
carrying an optional `link` string, or a direct string. -/
inductive BioLinkField where
  | absent : BioLinkField
  | obj : Option String → BioLinkField
  | strv : String → BioLinkField
deriving DecidableEq

/-- The raw user subtree, restricted to the fields the normalization
pipeline reads. String-typed fields are `Option String` (`none` for
null/undefined/non-string); stat counters are full `JsVal`s because
`safeNumber` dispatches on their runtime type; `createTime` is the raw
Unix-seconds value (a number or absent in every container shape). -/
structure RawUser where
  signature : Option String
  bioDescription : Option String
  description : Option String
  bioLink : BioLinkField
  region : Option String
  createTime : Option Int
  followerCount : JsVal
  heartCount : JsVal
  videoCount : JsVal
  followingCount : JsVal
deriving DecidableEq

/-- JavaScript truthiness of an optional string (empty string is falsy). -/
def strTruthy : Option String → Bool
  | some s => !(s == "")
  | none => false

/-- Embedding of `extractBio` (src/api.js): the first truthy string
among `signature`, `bioDescription`, `description`. -/
def extractBio (u : RawUser) : Option String :=
  if strTruthy u.signature then u.signature
  else if strTruthy u.bioDescription then u.bioDescription
  else if strTruthy u.description then u.description
  else none

/-- First stage of `extractBioLink` (src/api.js): the structured
`bioLink.link` object field — returned when the link is truthy, a
string, and passes `isValidUrl`; otherwise fall through. -/
def bioLinkFromObj (u : RawUser) : Option String :=
  match u.bioLink with
  | .obj (some l) => if (!(l == "")) && isValidUrl l then some l else none
  | _ => none

/-- Second stage of `extractBioLink`: the direct string `bioLink` field,
when it passes `isValidUrl`. -/
def bioLinkFromStr (u : RawUser) : Option String :=
  match u.bioLink with
  | .strv s => if isValidUrl s then some s else none
  | _ => none

/-- Third stage of `extractBioLink`: the first strict-regex URL match
inside the extracted bio text, when it passes `isValidUrl`. -/
def bioLinkFromText (u : RawUser) : Option String :=
  match extractBio u with
  | none => none
  | some bio =>
    match bioUrlMatch bio.data with
    | some m => if isValidUrl (String.mk m) then some (String.mk m) else none
    | none => none

/-- Embedding of `extractBioLink` (src/api.js): a validated URL from the
structured `bioLink.link` object field, else the direct string `bioLink`
field, else the first strict-regex URL match inside the bio text; a
failed candidate falls through to the next source (the three stages are
split out above for the proofs; the control flow is the source's). -/
def extractBioLink (u : RawUser) : Option String :=
  match bioLinkFromObj u with
  | some r => some r
  | none =>
    match bioLinkFromStr u with
    | some r => some r
    | none => bioLinkFromText u

/-- The proleptic-Gregorian calendar year of a day count relative to
1970-01-01 (the civil-from-days algorithm); models the year computed by
JavaScript `Date` for a valid date, with the process in the UTC zone. -/
def civilYearFromDays (days : Int) : Int :=
  let z := days + 719468
  let era := Int.fdiv z 146097
  let doe := z - era * 146097
  let yoe := Int.fdiv (doe - Int.fdiv doe 1460 + Int.fdiv doe 36524 - Int.fdiv doe 146096) 365
  let y := yoe + era * 400
  let doy := doe - (365 * yoe + Int.fdiv yoe 4 - Int.fdiv yoe 100)
  let mp := Int.fdiv (5 * doy + 2) 153
  let m := if mp < 10 then mp + 3 else mp - 9
  if m ≤ 2 then y + 1 else y

/-- `getFullYear()` of a valid `Date` holding `ms` milliseconds since
the epoch. -/
def yearOfMs (ms : Int) : Int :=
  civilYearFromDays (Int.fdiv ms 86400000)

/-- The JavaScript `Date` range: `new Date(ms)` is an Invalid Date
whenever |ms| exceeds 8.64e15. -/
def msInDateRange (ms : Int) : Bool :=
  ms.natAbs ≤ 8640000000000000

/-- Embedding of `timestampToDate` (src/api.js) for the numeric
`createTime` field, with the validated date represented by its
millisecond value: falsy (absent or zero) → null; year outside
[2016, current year] → null; an out-of-range timestamp produces an
Invalid Date whose NaN year passes both comparisons, but
`toISOString()` then throws and the catch returns null. -/
def timestampToDate (ct : Option Int) (nowYear : Int) : Option Int :=
  match ct with
  | none => none
  | some v =>
    if v = 0 then none
    else
      let ms := v * 1000
      if !msInDateRange ms then none
      else
        let year := yearOfMs ms
        if year < 2016 ∨ nowYear < year then none
        else some ms

/-- Embedding of `calculateAccountAge` (src/api.js) for the numeric
`createTime` field: falsy → null; valid date with year outside
[2016, current year] → null; negative age → null; an out-of-range
timestamp gives an Invalid Date whose NaN year passes both comparisons
and whose NaN age passes the `ageDays < 0` check, so NaN is returned. -/
def calculateAccountAge (ct : Option Int) (nowMs : Int) : Option JsNum :=
  match ct with
  | none => none
  | some v =>
    if v = 0 then none
    else
      let created := v * 1000
      if !msInDateRange created then some JsNum.nan
      else
        let year := yearOfMs created
        if year < 2016 ∨ yearOfMs nowMs < year then none
        else
          let ageDays := Int.fdiv (nowMs - created) 86400000
          if ageDays < 0 then none else some (JsNum.int ageDays)

/-- JavaScript `Math.round`: round half toward positive infinity. -/
def jsRound (x : ℚ) : Int :=
  Int.floor (x + 1 / 2)

/-- The engagement-rate derivation of `parseProfileFromHtml`
(src/api.js): guarded by the truthiness conjunction
`followers && followers > 0 && likes && videos && videos > 0`, the rate
is `Math.round((likes/videos / followers) * 10000) / 100`, and a result
that is negative or above 100 is discarded to null (the NaN case of the
guard cannot arise over ℚ). -/
def engagementRateOf (followers likes videos : Option Int) : Option ℚ :=
  match followers, likes, videos with
  | some f, some l, some v =>
    if f ≠ 0 ∧ 0 < f ∧ l ≠ 0 ∧ v ≠ 0 ∧ 0 < v then
      let rate : ℚ := (jsRound ((l : ℚ) / (v : ℚ) / (f : ℚ) * 10000) : ℚ) / 100
      if rate < 0 ∨ 100 < rate then none else some rate
    else none
  | _, _, _ => none

/-- JavaScript truthiness of the computed `followers` value together
with the explicit null check: `followers !== null && followers > 0`. -/
def followersPos : Option Int → Bool
  | some f => decide (0 < f)
  | none => false

/-- JavaScript truthiness of an optional number (zero is falsy). -/
def numTruthy : Option Int → Bool
  | some v => !(v == 0)
  | none => false

/-- Embedding of `calculateDataQualityScore` (src/api.js): base 50,
+10 per truthy `bio`, `bioLink`, `region`, `followers > 0` (with an
explicit null check), and truthy `createdAt` argument, capped at 100.
Note the caller passes the raw `userData.createTime` as `createdAt`. -/
def calculateDataQualityScore (bio bioLink region : Option String)
    (followers : Option Int) (createdAtRaw : Option Int) : Int :=
  let s0 : Int := 50
  let s1 := if strTruthy bio then s0 + 10 else s0
  let s2 := if strTruthy bioLink then s1 + 10 else s1
  let s3 := if strTruthy region then s2 + 10 else s2
  let s4 := if followersPos followers then s3 + 10 else s3
  let s5 := if numTruthy createdAtRaw then s4 + 10 else s4
  min 100 s5

/-- The raw stats subtree, restricted to the counters the pipeline reads. -/
structure RawStats where
  followerCount : JsVal
  heart : JsVal
  heartCount : JsVal
  videoCount : JsVal
  followingCount : JsVal
  friendCount : JsVal
  diggCount : JsVal
deriving DecidableEq

/-- `stats?.f ?? fallback`: optional chaining on a possibly-absent stats
object followed by nullish coalescing. -/
def nstat (stats : Option RawStats) (f : RawStats → JsVal) (fallback : JsVal) : JsVal :=
  match stats with
  | none => fallback
  | some st =>
    match f st with
    | .null => fallback
    | .undef => fallback
    | v => v

/-- `stats?.f` with no fallback (used for `friendCount`/`diggCount`). -/
def ostat (stats : Option RawStats) (f : RawStats → JsVal) : JsVal :=
  match stats with
  | none => .undef
  | some st => f st

/-- The slice of the canonical profile record the claims are about;
the remaining fields of `parseProfileFromHtml`'s result are verbatim
copies of raw values and are omitted. -/
structure Profile where
  bio : Option String
  bioLink : Option String
  region : Option String
  followers : Option Int
  following : Option Int
  likes : Option Int
  videos : Option Int
  friendCount : Option Int
  diggCount : Option Int
  engagementRate : Option ℚ
  createdAt : Option Int
  accountAgeDays : Option JsNum
  dataQualityScore : Int

/-- Embedding of the normalization tail of `parseProfileFromHtml`
(src/api.js), from the point where the raw user/stats subtrees have
been located in the page. `nowMs` is the clock reading (`Date.now()` /
`new Date()`), passed explicitly. -/
def parseProfile (u : RawUser) (stats : Option RawStats) (nowMs : Int) : Profile :=
  let bio := extractBio u
  let bioLink := extractBioLink u
  let accountAge := calculateAccountAge u.createTime nowMs
  let followers := safeNumber (nstat stats (·.followerCount) u.followerCount) ⟨"followers", none⟩
  let likes := safeNumber (nstat stats (·.heart) (nstat stats (·.heartCount) u.heartCount)) ⟨"likes", none⟩
  let videos := safeNumber (nstat stats (·.videoCount) u.videoCount) ⟨"", none⟩
  { bio := bio
    bioLink := bioLink
    region := if strTruthy u.region then u.region else none
    followers := followers
    following := safeNumber (nstat stats (·.followingCount) u.followingCount) ⟨"following", none⟩
    likes := likes
    videos := videos
    friendCount := safeNumber (ostat stats (·.friendCount)) ⟨"", none⟩
    diggCount := safeNumber (ostat stats (·.diggCount)) ⟨"", none⟩
    engagementRate := engagementRateOf followers likes videos
    createdAt := timestampToDate u.createTime (yearOfMs nowMs)
    accountAgeDays := accountAge
    dataQualityScore := calculateDataQualityScore bio bioLink u.region followers u.createTime }

/-- The desktop user-agent pool of the v2 signer module. -/
def USER_AGENTS_DESKTOP : List String := [
  "Mozilla/5.0 (Windows NT 10.0; Win64; x64) AppleWebKit/537.36 (KHTML, like Gecko) Chrome/125.0.0.0 Safari/537.36",
  "Mozilla/5.0 (Windows NT 10.0; Win64; x64) AppleWebKit/537.36 (KHTML, like Gecko) Chrome/124.0.0.0 Safari/537.36",
  "Mozilla/5.0 (Windows NT 10.0; Win64; x64) AppleWebKit/537.36 (KHTML, like Gecko) Chrome/123.0.0.0 Safari/537.36",
  "Mozilla/5.0 (Windows NT 10.0; Win64; x64) AppleWebKit/537.36 (KHTML, like Gecko) Chrome/122.0.0.0 Safari/537.36",
  "Mozilla/5.0 (Windows NT 10.0; Win64; x64) AppleWebKit/537.36 (KHTML, like Gecko) Chrome/121.0.0.0 Safari/537.36",
  "Mozilla/5.0 (Windows NT 10.0; Win64; x64) AppleWebKit/537.36 (KHTML, like Gecko) Chrome/120.0.0.0 Safari/537.36",
  "Mozilla/5.0 (Macintosh; Intel Mac OS X 10_15_7) AppleWebKit/537.36 (KHTML, like Gecko) Chrome/125.0.0.0 Safari/537.36",
  "Mozilla/5.0 (Macintosh; Intel Mac OS X 10_15_7) AppleWebKit/537.36 (KHTML, like Gecko) Chrome/124.0.0.0 Safari/537.36",
  "Mozilla/5.0 (Macintosh; Intel Mac OS X 10_15_7) AppleWebKit/537.36 (KHTML, like Gecko) Chrome/123.0.0.0 Safari/537.36",
  "Mozilla/5.0 (Macintosh; Intel Mac OS X 10_15_7) AppleWebKit/537.36 (KHTML, like Gecko) Chrome/122.0.0.0 Safari/537.36",
  "Mozilla/5.0 (Macintosh; Intel Mac OS X 10_15_7) AppleWebKit/537.36 (KHTML, like Gecko) Chrome/121.0.0.0 Safari/537.36",
  "Mozilla/5.0 (Macintosh; Intel Mac OS X 10_15_7) AppleWebKit/537.36 (KHTML, like Gecko) Chrome/120.0.0.0 Safari/537.36",
  "Mozilla/5.0 (Windows NT 10.0; Win64; x64; rv:125.0) Gecko/20100101 Firefox/125.0",
  "Mozilla/5.0 (Windows NT 10.0; Win64; x64; rv:124.0) Gecko/20100101 Firefox/124.0",
  "Mozilla/5.0 (Windows NT 10.0; Win64; x64; rv:123.0) Gecko/20100101 Firefox/123.0",
  "Mozilla/5.0 (Windows NT 10.0; Win64; x64; rv:122.0) Gecko/20100101 Firefox/122.0",
  "Mozilla/5.0 (Windows NT 10.0; Win64; x64; rv:121.0) Gecko/20100101 Firefox/121.0",
  "Mozilla/5.0 (Macintosh; Intel Mac OS X 10.15; rv:125.0) Gecko/20100101 Firefox/125.0",
  "Mozilla/5.0 (Macintosh; Intel Mac OS X 10.15; rv:124.0) Gecko/20100101 Firefox/124.0",
  "Mozilla/5.0 (Macintosh; Intel Mac OS X 10.15; rv:123.0) Gecko/20100101 Firefox/123.0",
  "Mozilla/5.0 (Macintosh; Intel Mac OS X 10.15; rv:122.0) Gecko/20100101 Firefox/122.0",
  "Mozilla/5.0 (Macintosh; Intel Mac OS X 10.15; rv:121.0) Gecko/20100101 Firefox/121.0",
  "Mozilla/5.0 (Macintosh; Intel Mac OS X 10_15_7) AppleWebKit/605.1.15 (KHTML, like Gecko) Version/17.3 Safari/605.1.15",
  "Mozilla/5.0 (Macintosh; Intel Mac OS X 10_15_7) AppleWebKit/605.1.15 (KHTML, like Gecko) Version/17.2 Safari/605.1.15",
  "Mozilla/5.0 (Macintosh; Intel Mac OS X 10_15_7) AppleWebKit/605.1.15 (KHTML, like Gecko) Version/17.1 Safari/605.1.15",
  "Mozilla/5.0 (Windows NT 10.0; Win64; x64) AppleWebKit/537.36 (KHTML, like Gecko) Chrome/125.0.0.0 Safari/537.36 Edg/125.0.0.0",
  "Mozilla/5.0 (Windows NT 10.0; Win64; x64) AppleWebKit/537.36 (KHTML, like Gecko) Chrome/124.0.0.0 Safari/537.36 Edg/124.0.0.0",
  "Mozilla/5.0 (Windows NT 10.0; Win64; x64) AppleWebKit/537.36 (KHTML, like Gecko) Chrome/123.0.0.0 Safari/537.36 Edg/123.0.0.0"]

/-- The mobile user-agent pool of the v2 signer module. -/
def USER_AGENTS_MOBILE : List String := [
  "Mozilla/5.0 (Linux; Android 14; SM-S918B) AppleWebKit/537.36 (KHTML, like Gecko) Chrome/125.0.0.0 Mobile Safari/537.36",
  "Mozilla/5.0 (Linux; Android 14; SM-S918B) AppleWebKit/537.36 (KHTML, like Gecko) Chrome/124.0.0.0 Mobile Safari/537.36",
  "Mozilla/5.0 (Linux; Android 13; Pixel 8) AppleWebKit/537.36 (KHTML, like Gecko) Chrome/125.0.0.0 Mobile Safari/537.36",
  "Mozilla/5.0 (Linux; Android 13; Pixel 8) AppleWebKit/537.36 (KHTML, like Gecko) Chrome/124.0.0.0 Mobile Safari/537.36",
  "Mozilla/5.0 (iPhone; CPU iPhone OS 17_3 like Mac OS X) AppleWebKit/605.1.15 (KHTML, like Gecko) Version/17.3 Mobile/15E148 Safari/604.1",
  "Mozilla/5.0 (iPhone; CPU iPhone OS 17_2 like Mac OS X) AppleWebKit/605.1.15 (KHTML, like Gecko) Version/17.2 Mobile/15E148 Safari/604.1"]

/-- Embedding of `getRandomUserAgent(mobilePreference)`: the pool is
desktop+mobile when the preference flag is set and the 33% coin comes up
(`coin` models `Math.random() < 0.33`), desktop-only otherwise; `idx`
models the uniform index draw `Math.floor(Math.random() * pool.length)`. -/
def getRandomUserAgent (mobilePreference coin : Bool) (idx : Nat) : String :=
  let pool := if mobilePreference && coin then USER_AGENTS_DESKTOP ++ USER_AGENTS_MOBILE
              else USER_AGENTS_DESKTOP
  pool.getD (idx % pool.length) ""

/-- The `Sec-Ch-Ua-Platform` value computed inside the v2 signer's
`buildHeaders`: `"Windows"` by default, overridden in order by the
case-insensitive tests for mac, iPhone/iPad, and Android in the
user-agent string (independent `if`s, later tests win). -/
def buildHeadersPlatform (ua : String) : String :=
  let p0 := "Windows"
  let p1 := if containsCI ua "macintosh" || containsCI ua "mac os x" then "macOS" else p0
  let p2 := if containsCI ua "iphone" || containsCI ua "ipad" then "iOS" else p1
  if containsCI ua "android" then "Android" else p2

/-- The `isMobile` bit of the signer's `parseUserAgent`:
`/mobile|android|iphone|ipad/i.test(ua)`. -/
def isMobileUA (ua : String) : Bool :=
  containsCI ua "mobile" || containsCI ua "android" || containsCI ua "iphone" || containsCI ua "ipad"

/-- The user-agent-derived headers emitted by the v2 signer's
`buildHeaders`. The remaining headers are constants (Accept, Referer,
Origin, …) or randomness-only (Viewport-Width) and carry no user-agent
information, so they are omitted from the embedding. -/
structure HeadersOut where
  userAgent : String
  secChUaMobile : String
  secChUaPlatform : String
deriving DecidableEq

/-- Embedding of the v2 signer's `buildHeaders`, restricted to the
user-agent-derived header fields. -/
def buildHeaders (ua : String) : HeadersOut :=
  { userAgent := ua
    secChUaMobile := if isMobileUA ua then "?1" else "?0"
    secChUaPlatform := buildHeadersPlatform ua }

/-- The device/browser fingerprint the engine presents: device id and
user-agent (the pair `rotateSession` replaces). -/
structure Fingerprint where
  deviceId : String
  userAgent : String
deriving DecidableEq

/-- Embedding of `generateDeviceId`: the fixed prefix `"69"` followed by
17 hex characters of the random draw (passed in as `hex`). -/
def generateDeviceId (hex : String) : String :=
  "69" ++ hex.take 17

/-- The randomness one session rotation consumes: the hex string for the
new device id and the user-agent pool index. -/
structure Entropy where
  hex : String
  uaIdx : Nat
deriving DecidableEq

/-- The fingerprint produced by one rotation's random draws
(`generateDeviceId()` / `getRandomUserAgent()`, the latter with the
default desktop-only pool). -/
def rotFingerprint (e : Entropy) : Fingerprint :=
  { deviceId := generateDeviceId e.hex
    userAgent := getRandomUserAgent false false e.uaIdx }

/-- The engine state `scrapeUserProfile` reads and writes: fingerprint,
request counter, and the cookie jar (as the list of stored cookies). -/
structure EngineState where
  fp : Fingerprint
  requestCount : Nat
  cookies : List String
deriving DecidableEq

/-- Embedding of `isBlocked` (src/api.js): status 429/403/401, or a
case-sensitive block phrase in the body. -/
def isBlocked (statusCode : Nat) (body : String) : Bool :=
  statusCode == 429 || statusCode == 403 || statusCode == 401 ||
    containsSub body.data "Too many requests".data ||
    containsSub body.data "blocked".data

/-- The response of the page-fetch collaborator, as the engine reads it. -/
structure HttpResponse where
  statusCode : Nat
  body : String
  setCookies : List String
deriving DecidableEq

/-- The per-profile errors the engine raises on a fetch. -/
inductive FetchError where
  | blocked : Nat → FetchError
deriving DecidableEq

/-- Embedding of `rotateSession` (src/api.js): new device id, new
user-agent, a fresh cookie jar seeded with the `tt_webid_v2` cookie,
and the request counter reset to 0. -/
def rotateSession (_ : EngineState) (e : Entropy) : EngineState :=
  { fp := rotFingerprint e
    requestCount := 0
    cookies := ["tt_webid_v2=" ++ generateDeviceId e.hex] }

/-- The engine effects of one `scrapeUserProfile` fetch (src/api.js),
in source order: the block check throws before the counter moves; a
successful fetch increments `requestCount`, rotates the session when the
counter has reached 50, and then stores the response's cookies in the
(possibly fresh) jar. Pacing only sleeps and is claim-irrelevant. -/
def fetchStep (s : EngineState) (resp : HttpResponse) (e : Entropy) :
    Option FetchError × EngineState :=
  if isBlocked resp.statusCode resp.body then
    (some (FetchError.blocked resp.statusCode), s)
  else
    let s1 : EngineState := ⟨s.fp, s.requestCount + 1, s.cookies⟩
    let s2 : EngineState := if 50 ≤ s1.requestCount then rotateSession s1 e else s1
    (none, ⟨s2.fp, s2.requestCount, s2.cookies ++ resp.setCookies⟩)

/-- Run a sequence of fetches, threading the engine state (errors of
individual fetches leave the state unchanged, as in `fetchStep`). -/
def runFetches (s : EngineState) : List (HttpResponse × Entropy) → EngineState
  | [] => s
  | ev :: rest => runFetches (fetchStep s ev.1 ev.2).2 rest

/-- A fetch event that does not trip the block detector. -/
def okEv (p : HttpResponse × Entropy) : Bool :=
  !(isBlocked p.1.statusCode p.1.body)

end TikTokScraper

namespace TikTokScraper

/-- C1: for a negative raw stat value `v` parsed with a field context,
`safeNumber` returns `v + 4294967296`, except that the result is null
when that recovered value exceeds the field's realism ceiling
(1e9 for "followers", 1e14 for "likes"). -/
theorem safeNumber_negative_recovery (v : Int) (field : String) (mx : Option Int)
    (hv : v < 0) :
    safeNumber (JsVal.num v) ⟨field, mx⟩ =
      if (field = "followers" ∧ 1000000000 < v + 4294967296) ∨
         (field = "likes" ∧ 100000000000000 < v + 4294967296) then none
      else some (v + 4294967296) := by
  have hnot : ¬ (0 ≤ v) := not_le.mpr hv
  unfold safeNumber
  simp only [hnot, if_false]
  by_cases h1 : field = "followers" ∧ 1000000000 < v + 4294967296
  · simp [h1]
  · by_cases h2 : field = "likes" ∧ 100000000000000 < v + 4294967296
    · simp [h1, h2]
    · simp [h1, h2]

/-- Witness for C1: `safeNumber(-100, { field: 'followers' })` recovers
`4294967196`, which is over the 1e9 ceiling, so the result is null. -/
theorem safeNumber_negative_recovery_witness :
    safeNumber (JsVal.num (-100)) ⟨"followers", none⟩ = none := by
  have h := safeNumber_negative_recovery (-100) "followers" none (by decide)
  rw [h]
  decide

/-- Behaviour of the engagement-rate derivation: the result is null or
within [0, 100], and it is null whenever the parsed followers or videos
value is 0. -/
theorem engagementRateOf_spec (f l v : Option Int) :
    (engagementRateOf f l v = none ∨
      ∃ r, engagementRateOf f l v = some r ∧ 0 ≤ r ∧ r ≤ 100) ∧
    ((f = some 0 ∨ v = some 0) → engagementRateOf f l v = none) := by
  rcases f with _ | f
  · exact ⟨Or.inl rfl, fun _ => rfl⟩
  rcases l with _ | l
  · refine ⟨Or.inl rfl, fun _ => rfl⟩
  rcases v with _ | v
  · exact ⟨Or.inl rfl, fun _ => rfl⟩
  constructor
  · simp only [engagementRateOf]
    by_cases hg : f ≠ 0 ∧ 0 < f ∧ l ≠ 0 ∧ v ≠ 0 ∧ 0 < v
    · rw [if_pos hg]
      by_cases hr : ((jsRound ((l : ℚ) / (v : ℚ) / (f : ℚ) * 10000) : ℚ) / 100) < 0 ∨
          100 < ((jsRound ((l : ℚ) / (v : ℚ) / (f : ℚ) * 10000) : ℚ) / 100)
      · rw [if_pos hr]
        exact Or.inl rfl
      · rw [if_neg hr]
        push_neg at hr
        exact Or.inr ⟨_, rfl, hr.1, hr.2⟩
    · rw [if_neg hg]
      exact Or.inl rfl
  · rintro (h0 | h0) <;> injection h0 with h0 <;> subst h0 <;>
      simp [engagementRateOf]

/-- C2: every profile's engagement rate is null or within the closed
interval [0, 100], and it is null whenever the parsed followers value or
the parsed videos value is 0. -/
theorem profile_engagementRate_bounded (u : RawUser) (st : Option RawStats) (nowMs : Int) :
    ((parseProfile u st nowMs).engagementRate = none ∨
      ∃ r, (parseProfile u st nowMs).engagementRate = some r ∧ 0 ≤ r ∧ r ≤ 100) ∧
    ((parseProfile u st nowMs).followers = some 0 ∨ (parseProfile u st nowMs).videos = some 0 →
      (parseProfile u st nowMs).engagementRate = none) :=
  engagementRateOf_spec
    (safeNumber (nstat st (·.followerCount) u.followerCount) ⟨"followers", none⟩)
    (safeNumber (nstat st (·.heart) (nstat st (·.heartCount) u.heartCount)) ⟨"likes", none⟩)
    (safeNumber (nstat st (·.videoCount) u.videoCount) ⟨"", none⟩)

/-- A raw user subtree with every pipeline-visible field absent. -/
def emptyUser : RawUser :=
  ⟨none, none, none, BioLinkField.absent, none, none, .undef, .undef, .undef, .undef⟩

/-- Witness for C2: a profile with `followerCount = 0` (and nonzero
likes and videos) gets a null engagement rate. -/
theorem profile_engagementRate_bounded_witness :
    (parseProfile emptyUser
        (some ⟨.num 0, .num 10, .undef, .num 5, .undef, .undef, .undef⟩) 0).engagementRate
      = none :=
  (profile_engagementRate_bounded emptyUser
    (some ⟨.num 0, .num 10, .undef, .num 5, .undef, .undef, .undef⟩) 0).2
    (Or.inl (by decide))

/-- C4: a fetch whose response has status 429 raises the blocked error
and leaves the engine state — in particular `requestCount` and the
fingerprint — completely unchanged, so this path alone never rotates
the session. -/
theorem fetch429_blocked_state_unchanged (s : EngineState) (resp : HttpResponse) (e : Entropy)
    (h : resp.statusCode = 429) :
    fetchStep s resp e = (some (FetchError.blocked 429), s) := by
  have hb : isBlocked resp.statusCode resp.body = true := by
    unfold isBlocked
    rw [h]
    rfl
  unfold fetchStep
  rw [hb, h]
  simp

/-- Witness for C4: a concrete 429 response against a mid-session state. -/
theorem fetch429_blocked_state_unchanged_witness :
    fetchStep ⟨⟨"69aabbcc", "ua"⟩, 7, ["c1"]⟩ ⟨429, "", ["x=1"]⟩ ⟨"ffee", 3⟩ =
      (some (FetchError.blocked 429), ⟨⟨"69aabbcc", "ua"⟩, 7, ["c1"]⟩) :=
  fetch429_blocked_state_unchanged ⟨⟨"69aabbcc", "ua"⟩, 7, ["c1"]⟩ ⟨429, "", ["x=1"]⟩ ⟨"ffee", 3⟩ rfl

/-- C10: for every input, the data-quality score lies in [50, 100] and
is a multiple of 10 — in particular it is never below 50, even with
every scored field missing. -/
theorem dataQualityScore_range (bio bioLink region : Option String)
    (followers : Option Int) (createdAtRaw : Option Int) :
    50 ≤ calculateDataQualityScore bio bioLink region followers createdAtRaw ∧
    calculateDataQualityScore bio bioLink region followers createdAtRaw ≤ 100 ∧
    calculateDataQualityScore bio bioLink region followers createdAtRaw % 10 = 0 := by
  simp only [calculateDataQualityScore]
  split_ifs <;> decide

/-- The OS family of a user-agent string, written from the claim's
wording: Android and iPhone/iPad user-agents, Macintosh user-agents and
Windows user-agents must pair with the platform tokens `"Android"`,
`"iOS"`, `"macOS"` and `"Windows"` respectively (spec-side definition,
used to compare against the header the source emits). -/
def uaOSFamilyPlatform (ua : String) : String :=
  if containsCI ua "android" then "Android"
  else if containsCI ua "iphone" || containsCI ua "ipad" then "iOS"
  else if containsCI ua "macintosh" then "macOS"
  else "Windows"

/-- A `List.all` fact transfers to any `getD` access (the out-of-range
default must satisfy the predicate too). -/
theorem getD_all_aux {p : String → Bool} :
    ∀ (l : List String) (n : Nat) (d : String),
      l.all p = true → p d = true → p (l.getD n d) = true := by
  intro l
  induction l with
  | nil =>
    intro n d _ hd
    simpa [List.getD] using hd
  | cons a t ih =>
    intro n d hall hd
    rw [List.all_cons, Bool.and_eq_true] at hall
    cases n with
    | zero => simpa [List.getD_cons_zero] using hall.1
    | succ n => simpa [List.getD_cons_succ] using ih n d hall.2 hd

/-- C5: for every user-agent the fingerprint generator can draw (desktop
pool, or desktop+mobile under the mobile preference), the
`Sec-Ch-Ua-Platform` header emitted by `buildHeaders` agrees with the
OS family of that user-agent string. -/
theorem secChUaPlatform_matches_os (mob coin : Bool) (idx : Nat) :
    (buildHeaders (getRandomUserAgent mob coin idx)).secChUaPlatform =
      uaOSFamilyPlatform (getRandomUserAgent mob coin idx) := by
  have hall : (USER_AGENTS_DESKTOP ++ USER_AGENTS_MOBILE).all
      (fun ua => buildHeadersPlatform ua == uaOSFamilyPlatform ua) = true := by decide
  have hdef : (buildHeadersPlatform "" == uaOSFamilyPlatform "") = true := by decide
  have key : ∀ (pool : List String),
      pool.all (fun ua => buildHeadersPlatform ua == uaOSFamilyPlatform ua) = true →
      ∀ n, (buildHeaders (pool.getD n "")).secChUaPlatform =
        uaOSFamilyPlatform (pool.getD n "") := by
    intro pool hp n
    exact eq_of_beq (getD_all_aux pool n "" hp hdef)
  simp only [getRandomUserAgent]
  by_cases hmc : (mob && coin) = true
  · rw [if_pos hmc]
    exact key _ hall _
  · rw [if_neg hmc]
    have hD : USER_AGENTS_DESKTOP.all
        (fun ua => buildHeadersPlatform ua == uaOSFamilyPlatform ua) = true := by
      rw [List.all_append, Bool.and_eq_true] at hall
      exact hall.1
    exact key _ hD _

/-- One successful fetch below the rotation threshold: the counter
advances, the fingerprint is untouched, the response cookies are stored. -/
theorem fetchStep_ok_lt (s : EngineState) (resp : HttpResponse) (e : Entropy)
    (hok : isBlocked resp.statusCode resp.body = false) (hlt : s.requestCount + 1 < 50) :
    (fetchStep s resp e).2 = ⟨s.fp, s.requestCount + 1, s.cookies ++ resp.setCookies⟩ := by
  have hge : ¬ (50 ≤ s.requestCount + 1) := by omega
  unfold fetchStep
  rw [hok]
  simp [hge]

/-- The successful fetch that reaches the threshold: the session rotates
to the entropy's fresh fingerprint and the counter resets to 0 before
the response cookies are stored in the fresh jar. -/
theorem fetchStep_ok_rot (s : EngineState) (resp : HttpResponse) (e : Entropy)
    (hok : isBlocked resp.statusCode resp.body = false) (hge : 50 ≤ s.requestCount + 1) :
    (fetchStep s resp e).2 =
      ⟨rotFingerprint e, 0, ["tt_webid_v2=" ++ generateDeviceId e.hex] ++ resp.setCookies⟩ := by
  unfold fetchStep
  rw [hok]
  simp [hge, rotateSession]

theorem runFetches_append (a b : List (HttpResponse × Entropy)) :
    ∀ s, runFetches s (a ++ b) = runFetches (runFetches s a) b := by
  induction a with
  | nil => intro s; rfl
  | cons ev rest ih =>
    intro s
    simpa [runFetches] using ih (fetchStep s ev.1 ev.2).2

/-- A run of successful fetches that stays strictly below the rotation
threshold only advances the counter; the fingerprint survives. -/
theorem runFetches_no_rot :
    ∀ (evs : List (HttpResponse × Entropy)) (s : EngineState),
      evs.all okEv = true → s.requestCount + evs.length < 50 →
      (runFetches s evs).requestCount = s.requestCount + evs.length ∧
      (runFetches s evs).fp = s.fp := by
  intro evs
  induction evs with
  | nil =>
    intro s _ _
    exact ⟨rfl, rfl⟩
  | cons ev rest ih =>
    intro s hall hlt
    rw [List.all_cons, Bool.and_eq_true] at hall
    have hok : isBlocked ev.1.statusCode ev.1.body = false := by
      have h1 := hall.1
      unfold okEv at h1
      simpa [okEv] using h1
    have hstep := fetchStep_ok_lt s ev.1 ev.2 hok (by simp at hlt; omega)
    have hrun : runFetches s (ev :: rest) = runFetches (fetchStep s ev.1 ev.2).2 rest := rfl
    rw [hrun, hstep]
    have := ih ⟨s.fp, s.requestCount + 1, s.cookies ++ ev.1.setCookies⟩ hall.2
      (by simp at hlt ⊢; omega)
    refine ⟨?_, this.2⟩
    rw [this.1]
    simp
    omega

/-- Amended C3: after exactly 50 successful fetches from a fresh
counter, the next fetch observes `requestCount = 0` and the fingerprint
freshly generated from the rotation's random draws; that fingerprint
differs from the one used immediately prior exactly when the fresh draws
produce a different device id or user-agent. -/
theorem rotation_after_threshold (s : EngineState)
    (evs : List (HttpResponse × Entropy)) (lastEv : HttpResponse × Entropy)
    (hok : (evs ++ [lastEv]).all okEv = true)
    (hc : s.requestCount = 0) (hlen : evs.length = 49) :
    (runFetches s (evs ++ [lastEv])).requestCount = 0 ∧
    (runFetches s (evs ++ [lastEv])).fp = rotFingerprint lastEv.2 ∧
    ((runFetches s (evs ++ [lastEv])).fp ≠ s.fp ↔ rotFingerprint lastEv.2 ≠ s.fp) := by
  rw [List.all_append, Bool.and_eq_true] at hok
  have h49 := runFetches_no_rot evs s hok.1 (by omega)
  have hok2 : isBlocked lastEv.1.statusCode lastEv.1.body = false := by
    have h2 := hok.2
    simp only [List.all_cons, List.all_nil, Bool.and_true] at h2
    simpa [okEv] using h2
  have hrot := fetchStep_ok_rot (runFetches s evs) lastEv.1 lastEv.2 hok2 (by omega)
  have happ : runFetches s (evs ++ [lastEv]) =
      runFetches (runFetches s evs) [lastEv] := runFetches_append evs [lastEv] s
  have hone : runFetches (runFetches s evs) [lastEv] =
      (fetchStep (runFetches s evs) lastEv.1 lastEv.2).2 := rfl
  rw [happ, hone, hrot]
  exact ⟨rfl, rfl, Iff.rfl⟩

/-- A 200-status, empty-body response paired with a fixed entropy draw. -/
def okEvent (e : Entropy) : HttpResponse × Entropy :=
  (⟨200, "", []⟩, e)

/-- The entropy draw used by the rotation counterexample. -/
def cexEntropy : Entropy := ⟨"abcdef0123456789abc", 0⟩

/-- An engine whose current fingerprint came from `cexEntropy`'s draws. -/
def cexState : EngineState := ⟨rotFingerprint cexEntropy, 0, []⟩

/-- Counterexample to C3 as stated: when the rotation's random draws
repeat the previous device-id hex and user-agent index, the fingerprint
after 50 successful fetches equals the one used immediately prior
(while `requestCount` is indeed 0), so "a fingerprint different from
the one used immediately prior" is not guaranteed. -/
theorem rotation_fingerprint_can_repeat :
    (runFetches cexState (List.replicate 50 (okEvent cexEntropy))).requestCount = 0 ∧
    (runFetches cexState (List.replicate 50 (okEvent cexEntropy))).fp = cexState.fp := by
  decide

/-- Witness for the amended C3: with fresh draws that differ from the
prior ones, after 49+1 successful fetches the counter is 0 and the
fingerprint is the one regenerated from the final entropy. -/
theorem rotation_after_threshold_witness :
    (runFetches cexState
        (List.replicate 49 (okEvent cexEntropy) ++ [okEvent ⟨"0123456789abcdef012", 5⟩])).requestCount = 0 ∧
    (runFetches cexState
        (List.replicate 49 (okEvent cexEntropy) ++ [okEvent ⟨"0123456789abcdef012", 5⟩])).fp =
      rotFingerprint ⟨"0123456789abcdef012", 5⟩ ∧
    ((runFetches cexState
        (List.replicate 49 (okEvent cexEntropy) ++ [okEvent ⟨"0123456789abcdef012", 5⟩])).fp ≠ cexState.fp ↔
      rotFingerprint ⟨"0123456789abcdef012", 5⟩ ≠ cexState.fp) :=
  rotation_after_threshold cexState (List.replicate 49 (okEvent cexEntropy))
    (okEvent ⟨"0123456789abcdef012", 5⟩) (by decide) rfl (by decide)

/-- A stats subtree whose `followerCount` is the numeric string "-5". -/
def statsNegStr : RawStats := ⟨.str "-5", .undef, .undef, .undef, .undef, .undef, .undef⟩

/-- Counterexample to C6 as stated: a numeric-string raw value bypasses
both the non-negativity and the ceiling checks of `safeNumber`
(`parseInt` keeps the sign and only the caller-supplied `max`, left at
Infinity, is checked), so `followerCount = "-5"` normalizes to the
negative count −5 instead of null or a non-negative bounded value. -/
theorem count_field_invariant_false :
    ¬ ((parseProfile emptyUser (some statsNegStr) 0).followers = none ∨
       ∃ n, (parseProfile emptyUser (some statsNegStr) 0).followers = some n ∧ 0 ≤ n) := by
  have h : (parseProfile emptyUser (some statsNegStr) 0).followers = some (-5) := by decide
  rintro (h0 | ⟨n, hn, hpos⟩)
  · rw [h] at h0
    cases h0
  · rw [h] at hn
    injection hn with hn
    omega

/-- Amended C6: the field-specific realism ceilings are enforced exactly
on the negative-number (overflow recovery) path: when the raw
`followerCount`/`heart` stat is a negative number, the normalized
followers/likes field is null or the recovered value within the
field's ceiling (1e9 / 1e14). Null and undefined raw values always
normalize to null; numeric strings and non-negative numbers are passed
through without a ceiling check. -/
theorem count_field_ceiling_for_negative_numbers (u : RawUser) (st : RawStats) (nowMs : Int)
    (vf vl : Int) (hvf : vf < 0) (hvl : vl < 0)
    (hf : st.followerCount = JsVal.num vf) (hl : st.heart = JsVal.num vl) :
    ((parseProfile u (some st) nowMs).followers = none ∨
      ∃ w, (parseProfile u (some st) nowMs).followers = some w ∧
        w = vf + 4294967296 ∧ w ≤ 1000000000) ∧
    ((parseProfile u (some st) nowMs).likes = none ∨
      ∃ w, (parseProfile u (some st) nowMs).likes = some w ∧
        w = vl + 4294967296 ∧ w ≤ 100000000000000) := by
  have hnf : ¬ (0 ≤ vf) := not_le.mpr hvf
  have hnl : ¬ (0 ≤ vl) := not_le.mpr hvl
  have hfe : (parseProfile u (some st) nowMs).followers =
      safeNumber (JsVal.num vf) ⟨"followers", none⟩ := by
    show safeNumber (nstat (some st) (·.followerCount) u.followerCount) ⟨"followers", none⟩ =
      safeNumber (JsVal.num vf) ⟨"followers", none⟩
    rw [show nstat (some st) (·.followerCount) u.followerCount = JsVal.num vf by
      simp [nstat, hf]]
  have hle : (parseProfile u (some st) nowMs).likes =
      safeNumber (JsVal.num vl) ⟨"likes", none⟩ := by
    show safeNumber (nstat (some st) (·.heart) (nstat (some st) (·.heartCount) u.heartCount))
        ⟨"likes", none⟩ = safeNumber (JsVal.num vl) ⟨"likes", none⟩
    rw [show nstat (some st) (·.heart) (nstat (some st) (·.heartCount) u.heartCount) =
        JsVal.num vl by simp [nstat, hl]]
  constructor
  · rw [hfe]
    by_cases hc : (1000000000 : Int) < vf + 4294967296
    · left
      simp [safeNumber, hnf, hc]
    · right
      refine ⟨vf + 4294967296, ?_, rfl, by omega⟩
      simp [safeNumber, hnf, hc]
  · rw [hle]
    by_cases hc : (100000000000000 : Int) < vl + 4294967296
    · left
      simp [safeNumber, hnl, hc]
    · right
      refine ⟨vl + 4294967296, ?_, rfl, by omega⟩
      simp [safeNumber, hnl, hc]

/-- Witness for the amended C6: raw `followerCount = -100` recovers to
4294967196, which exceeds the 1e9 followers ceiling, giving null;
raw `heart = -50` recovers to 4294967246, within the 1e14 likes
ceiling. -/
theorem count_field_ceiling_witness :
    ((parseProfile emptyUser
        (some ⟨.num (-100), .num (-50), .undef, .undef, .undef, .undef, .undef⟩) 0).followers = none ∨
      ∃ w, (parseProfile emptyUser
        (some ⟨.num (-100), .num (-50), .undef, .undef, .undef, .undef, .undef⟩) 0).followers = some w ∧
        w = -100 + 4294967296 ∧ w ≤ 1000000000) ∧
    ((parseProfile emptyUser
        (some ⟨.num (-100), .num (-50), .undef, .undef, .undef, .undef, .undef⟩) 0).likes = none ∨
      ∃ w, (parseProfile emptyUser
        (some ⟨.num (-100), .num (-50), .undef, .undef, .undef, .undef, .undef⟩) 0).likes = some w ∧
        w = -50 + 4294967296 ∧ w ≤ 100000000000000) :=
  count_field_ceiling_for_negative_numbers emptyUser
    ⟨.num (-100), .num (-50), .undef, .undef, .undef, .undef, .undef⟩ 0 (-100) (-50)
    (by decide) (by decide) rfl rfl

/-- Counterexample to C7 as stated: for a `createTime` just past the
JavaScript `Date` range (8640000000001 seconds ≈ 8.64e15 + 1000 ms),
the invalid date's NaN year passes both sanity comparisons and the NaN
age passes the `ageDays < 0` check, so `calculateAccountAge` returns
NaN — which is neither null nor a number ≥ 0. -/
theorem accountAge_nan_for_out_of_range_timestamp :
    calculateAccountAge (some 8640000000001) 1760000000000 = some JsNum.nan ∧
    ¬ (calculateAccountAge (some 8640000000001) 1760000000000 = none ∨
       ∃ n, calculateAccountAge (some 8640000000001) 1760000000000 = some (JsNum.int n) ∧
         0 ≤ n) := by
  have h : calculateAccountAge (some 8640000000001) 1760000000000 = some JsNum.nan := by
    decide
  refine ⟨h, ?_⟩
  rintro (h0 | ⟨n, hn, _⟩)
  · rw [h] at h0
    cases h0
  · rw [h] at hn
    injection hn with hn
    cases hn

/-- Amended C7: `createdAt` is non-null only when the timestamp's
calendar year lies in [2016, current year]; for every `createTime`
within the JavaScript `Date` range (|ms| ≤ 8.64e15), `accountAgeDays`
is null or ≥ 0 (outside that range the code returns NaN); and a
`createTime` in year 2010 yields `createdAt = null` and
`accountAgeDays = null`. -/
theorem timestamp_validation_amended (ts nowMs : Int) :
    (∀ d, timestampToDate (some ts) (yearOfMs nowMs) = some d →
        2016 ≤ yearOfMs d ∧ yearOfMs d ≤ yearOfMs nowMs) ∧
    (msInDateRange (ts * 1000) = true →
        calculateAccountAge (some ts) nowMs = none ∨
        ∃ n, calculateAccountAge (some ts) nowMs = some (JsNum.int n) ∧ 0 ≤ n) ∧
    (yearOfMs (ts * 1000) = 2010 → msInDateRange (ts * 1000) = true →
        timestampToDate (some ts) (yearOfMs nowMs) = none ∧
        calculateAccountAge (some ts) nowMs = none) := by
  refine ⟨?_, ?_, ?_⟩
  · intro d hd
    simp only [timestampToDate] at hd
    split_ifs at hd with h0 h1 h2
    · injection hd with hd
      subst hd
      push_neg at h2
      exact ⟨by omega, h2.2⟩
  · intro hr
    simp only [calculateAccountAge, hr, Bool.not_true]
    by_cases h0 : ts = 0
    · rw [if_pos h0]
      exact Or.inl rfl
    rw [if_neg h0]
    simp only [Bool.false_eq_true, if_false]
    by_cases hy : yearOfMs (ts * 1000) < 2016 ∨ yearOfMs nowMs < yearOfMs (ts * 1000)
    · rw [if_pos hy]
      exact Or.inl rfl
    rw [if_neg hy]
    by_cases ha : Int.fdiv (nowMs - ts * 1000) 86400000 < 0
    · rw [if_pos ha]
      exact Or.inl rfl
    · rw [if_neg ha]
      exact Or.inr ⟨_, rfl, by omega⟩
  · intro hy hr
    constructor
    · simp only [timestampToDate]
      by_cases h0 : ts = 0
      · rw [if_pos h0]
      rw [if_neg h0]
      simp only [hr, Bool.not_true, Bool.false_eq_true, if_false]
      rw [if_pos (Or.inl (by omega))]
    · simp only [calculateAccountAge]
      by_cases h0 : ts = 0
      · rw [if_pos h0]
      rw [if_neg h0]
      simp only [hr, Bool.not_true, Bool.false_eq_true, if_false]
      rw [if_pos (Or.inl (by omega))]

/-- Witness for the amended C7: 1262304000 s is 2010-01-01, so with the
clock at 1760000000000 ms (a 2025 date) both normalized date fields are
null. -/
theorem timestamp_validation_amended_witness :
    timestampToDate (some 1262304000) (yearOfMs 1760000000000) = none ∧
    calculateAccountAge (some 1262304000) 1760000000000 = none :=
  (timestamp_validation_amended 1262304000 1760000000000).2.2 (by decide) (by decide)

/-- The quality score as a single sum (the sequential `score += 10`
updates of the source, folded together). -/
theorem calculateDataQualityScore_as_sum (bio bioLink region : Option String)
    (followers : Option Int) (createdAtRaw : Option Int) :
    calculateDataQualityScore bio bioLink region followers createdAtRaw =
      min 100 (50 + (if strTruthy bio then (10 : Int) else 0)
        + (if strTruthy bioLink then (10 : Int) else 0)
        + (if strTruthy region then (10 : Int) else 0)
        + (if followersPos followers then (10 : Int) else 0)
        + (if numTruthy createdAtRaw then (10 : Int) else 0)) := by
  simp only [calculateDataQualityScore]
  split_ifs <;> norm_num

/-- `extractBio` never returns the empty string (each source field is
guarded by JavaScript truthiness). -/
theorem extractBio_ne_some_empty (u : RawUser) : extractBio u ≠ some "" := by
  intro hcontra
  unfold extractBio at hcontra
  split_ifs at hcontra with h1 h2 h3
  · rw [hcontra] at h1
    simp [strTruthy] at h1
  · rw [hcontra] at h2
    simp [strTruthy] at h2
  · rw [hcontra] at h3
    simp [strTruthy] at h3

/-- A validated URL is nonempty (`isValidUrl` rejects the empty string). -/
theorem isValidUrl_ne_empty (s : String) (h : isValidUrl s = true) : s ≠ "" := by
  intro he
  subst he
  simp [isValidUrl] at h

/-- The structured-object stage only returns validated URLs. -/
theorem bioLinkFromObj_valid (u : RawUser) (x : String)
    (hx : bioLinkFromObj u = some x) : isValidUrl x = true := by
  cases hb : u.bioLink with
  | obj ol =>
    cases ol with
    | some l =>
      simp only [bioLinkFromObj, hb] at hx
      split_ifs at hx with hv
      injection hx with hx
      subst hx
      rw [Bool.and_eq_true] at hv
      exact hv.2
    | none => simp [bioLinkFromObj, hb] at hx
  | strv s2 => simp [bioLinkFromObj, hb] at hx
  | absent => simp [bioLinkFromObj, hb] at hx

/-- The direct-string stage only returns validated URLs. -/
theorem bioLinkFromStr_valid (u : RawUser) (x : String)
    (hx : bioLinkFromStr u = some x) : isValidUrl x = true := by
  cases hb : u.bioLink with
  | strv s2 =>
    simp only [bioLinkFromStr, hb] at hx
    split_ifs at hx with hv
    injection hx with hx
    subst hx
    exact hv
  | obj ol => simp [bioLinkFromStr, hb] at hx
  | absent => simp [bioLinkFromStr, hb] at hx

/-- The bio-text stage only returns validated URLs. -/
theorem bioLinkFromText_valid (u : RawUser) (x : String)
    (hx : bioLinkFromText u = some x) : isValidUrl x = true := by
  unfold bioLinkFromText at hx
  cases hbio : extractBio u with
  | none => rw [hbio] at hx; cases hx
  | some bio =>
    rw [hbio] at hx
    simp only at hx
    cases hm : bioUrlMatch bio.data with
    | none => rw [hm] at hx; cases hx
    | some m =>
      rw [hm] at hx
      simp only at hx
      split_ifs at hx with hv
      injection hx with hx
      subst hx
      exact hv

/-- Every string `extractBioLink` returns passed `isValidUrl`. -/
theorem extractBioLink_valid (u : RawUser) (r : String)
    (h : extractBioLink u = some r) : isValidUrl r = true := by
  unfold extractBioLink at h
  cases hobj : bioLinkFromObj u with
  | some x =>
    simp only [hobj] at h
    injection h with h
    subst h
    exact bioLinkFromObj_valid u x hobj
  | none =>
    simp only [hobj] at h
    cases hstr : bioLinkFromStr u with
    | some x =>
      simp only [hstr] at h
      injection h with h
      subst h
      exact bioLinkFromStr_valid u x hstr
    | none =>
      simp only [hstr] at h
      exact bioLinkFromText_valid u r h

/-- `extractBioLink` never returns the empty string. -/
theorem extractBioLink_ne_some_empty (u : RawUser) : extractBioLink u ≠ some "" := by
  intro hcontra
  exact isValidUrl_ne_empty "" (extractBioLink_valid u "" hcontra) rfl

/-- For an optional string known not to be `some ""`, non-nullness and
JavaScript truthiness coincide. -/
theorem ne_none_iff_strTruthy (o : Option String) (hne : o ≠ some "") :
    o ≠ none ↔ strTruthy o = true := by
  cases o with
  | none => simp [strTruthy]
  | some s =>
    have hs : s ≠ "" := fun he => hne (by rw [he])
    simp [strTruthy, hs]

/-- The quality score as the claim states it: +10 for each non-null
`bio`, `bioLink`, `region`, for `followers > 0`, and for a non-null
*validated* `createdAt`, over a base of 50, capped at 100 (spec-side
definition, used to compare against the score the code computes). -/
def claimQualityScore (p : Profile) : Int :=
  min 100 (50 + (if p.bio ≠ none then (10 : Int) else 0)
    + (if p.bioLink ≠ none then (10 : Int) else 0)
    + (if p.region ≠ none then (10 : Int) else 0)
    + (if followersPos p.followers then (10 : Int) else 0)
    + (if p.createdAt ≠ none then (10 : Int) else 0))

/-- A raw user whose only pipeline-visible field is a year-2010
`createTime`. -/
def user2010 : RawUser :=
  ⟨none, none, none, BioLinkField.absent, none, some 1262304000, .undef, .undef, .undef, .undef⟩

/-- Counterexample to C8 as stated: the caller passes the raw
`createTime` (not the validated `createdAt`) to the scorer, so a profile
whose `createTime` is in 2010 — whose validated `createdAt` is null —
still collects the +10: the code scores 60 where the claim's formula
gives 50. -/
theorem qualityScore_uses_raw_createTime :
    (parseProfile user2010 none 1760000000000).createdAt = none ∧
    (parseProfile user2010 none 1760000000000).dataQualityScore = 60 ∧
    claimQualityScore (parseProfile user2010 none 1760000000000) = 50 ∧
    (parseProfile user2010 none 1760000000000).dataQualityScore ≠
      claimQualityScore (parseProfile user2010 none 1760000000000) := by
  decide

/-- Amended C8: the data quality score starts at a base of 50, adds 10
for each of non-null bio, non-null bioLink, non-null region,
followers > 0, and a *truthy raw `createTime`* (the unvalidated value
the caller passes as `createdAt`), and is capped at 100. -/
theorem qualityScore_formula (u : RawUser) (st : Option RawStats) (nowMs : Int) :
    (parseProfile u st nowMs).dataQualityScore =
      min 100 (50 + (if (parseProfile u st nowMs).bio ≠ none then (10 : Int) else 0)
        + (if (parseProfile u st nowMs).bioLink ≠ none then (10 : Int) else 0)
        + (if (parseProfile u st nowMs).region ≠ none then (10 : Int) else 0)
        + (if followersPos (parseProfile u st nowMs).followers then (10 : Int) else 0)
        + (if numTruthy u.createTime then (10 : Int) else 0)) := by
  have hbio : ((parseProfile u st nowMs).bio ≠ none) ↔ strTruthy (extractBio u) = true :=
    ne_none_iff_strTruthy (extractBio u) (extractBio_ne_some_empty u)
  have hlink : ((parseProfile u st nowMs).bioLink ≠ none) ↔
      strTruthy (extractBioLink u) = true :=
    ne_none_iff_strTruthy (extractBioLink u) (extractBioLink_ne_some_empty u)
  have hreg : ((parseProfile u st nowMs).region ≠ none) ↔ strTruthy u.region = true := by
    show ((if strTruthy u.region then u.region else none) ≠ none) ↔ strTruthy u.region = true
    cases hrt : strTruthy u.region with
    | false => simp
    | true =>
      simp only [if_pos rfl, ne_eq, iff_true]
      cases ho : u.region with
      | none => rw [ho] at hrt; simp [strTruthy] at hrt
      | some s => simp
  have hL : (parseProfile u st nowMs).dataQualityScore =
      calculateDataQualityScore (extractBio u) (extractBioLink u) u.region
        (safeNumber (nstat st (·.followerCount) u.followerCount) ⟨"followers", none⟩)
        u.createTime := rfl
  have hF : (parseProfile u st nowMs).followers =
      safeNumber (nstat st (·.followerCount) u.followerCount) ⟨"followers", none⟩ := rfl
  rw [hL, hF, calculateDataQualityScore_as_sum]
  rw [if_congr hbio.symm rfl rfl, if_congr hlink.symm rfl rfl, if_congr hreg.symm rfl rfl]

/-- A successful case-insensitive strip decomposes the input: the
consumed token lowercases to the pattern and is followed by the rest. -/
theorem stripCIPrefix_spec :
    ∀ (pat s tk rest : List Char), stripCIPrefix pat s = some (tk, rest) →
      s = tk ++ rest ∧ tk.map Char.toLower = pat := by
  intro pat
  induction pat with
  | nil =>
    intro s tk rest h
    simp only [stripCIPrefix] at h
    injection h with h
    rw [Prod.mk.injEq] at h
    obtain ⟨h1, h2⟩ := h
    subst h1
    subst h2
    exact ⟨rfl, rfl⟩
  | cons p ps ih =>
    intro s tk rest h
    cases s with
    | nil => simp [stripCIPrefix] at h
    | cons c cs =>
      simp only [stripCIPrefix] at h
      split_ifs at h with hc
      cases hrec : stripCIPrefix ps cs with
      | none => rw [hrec] at h; cases h
      | some pr =>
        obtain ⟨tk2, rest2⟩ := pr
        rw [hrec] at h
        simp only at h
        injection h with h
        rw [Prod.mk.injEq] at h
        obtain ⟨h1, h2⟩ := h
        subst h1
        subst h2
        obtain ⟨he, hm⟩ := ih cs tk2 _ hrec
        subst he
        exact ⟨rfl, by simp [hm, hc]⟩

/-- A successful scheme read consumes a case-insensitive `http://` or
`https://` token off the front of the input. -/
theorem trySchemeCI_spec (s tk rest : List Char) (h : trySchemeCI s = some (tk, rest)) :
    s = tk ++ rest ∧
      (tk.map Char.toLower = "http://".data ∨ tk.map Char.toLower = "https://".data) := by
  unfold trySchemeCI at h
  cases h7 : stripCIPrefix "http://".data s with
  | some pr =>
    rw [h7] at h
    simp only at h
    injection h with h
    subst h
    obtain ⟨he, hm⟩ := stripCIPrefix_spec "http://".data s tk rest h7
    exact ⟨he, Or.inl hm⟩
  | none =>
    rw [h7] at h
    simp only at h
    obtain ⟨he, hm⟩ := stripCIPrefix_spec "https://".data s tk rest h
    exact ⟨he, Or.inr hm⟩

/-- Whenever the bio-URL matcher succeeds on a text, the text contains a
scheme token (`http://`/`https://`, case-insensitively) followed by the
dotted-domain shape of the strict pattern. -/
theorem bioUrlMatch_sound :
    ∀ (l : List Char) (m : List Char), bioUrlMatch l = some m →
      ∃ pre tk rest, l = pre ++ (tk ++ rest) ∧
        (tk.map Char.toLower = "http://".data ∨ tk.map Char.toLower = "https://".data) ∧
        findDomainSplit rest false = true := by
  intro l
  induction l with
  | nil => intro m h; simp [bioUrlMatch] at h
  | cons c cs ih =>
    intro m h
    simp only [bioUrlMatch] at h
    cases hs : trySchemeCI (c :: cs) with
    | some pr =>
      obtain ⟨tk0, after⟩ := pr
      rw [hs] at h
      simp only at h
      by_cases hd : findDomainSplit after false = true
      · obtain ⟨he, hsch⟩ := trySchemeCI_spec (c :: cs) tk0 after hs
        exact ⟨[], tk0, after, by simpa using he, hsch, hd⟩
      · rw [if_neg hd] at h
        obtain ⟨pre, tk, rest, he, hsch, hdom⟩ := ih m h
        exact ⟨c :: pre, tk, rest, by rw [List.cons_append, ← he], hsch, hdom⟩
    | none =>
      rw [hs] at h
      simp only at h
      obtain ⟨pre, tk, rest, he, hsch, hdom⟩ := ih m h
      exact ⟨c :: pre, tk, rest, by rw [List.cons_append, ← he], hsch, hdom⟩

/-- Spec-side reading of "the text contains a scheme-prefixed
dotted-domain URL": somewhere in the string an `http://`/`https://`
token (case-insensitive) is followed by the strict pattern's
dotted-domain shape. -/
def hasSchemeUrl (b : String) : Prop :=
  ∃ pre tk rest, b.data = pre ++ (tk ++ rest) ∧
    (tk.map Char.toLower = "http://".data ∨ tk.map Char.toLower = "https://".data) ∧
    findDomainSplit rest false = true

/-- A raw user subtree carrying only a bio text (no structured bioLink). -/
def bioOnlyUser (s : String) : RawUser :=
  ⟨some s, none, none, BioLinkField.absent, none, none, .undef, .undef, .undef, .undef⟩

/-- C9: with no structured bioLink field, bioLink extraction from bio
text returns a URL only if the bio contains a scheme-prefixed
dotted-domain URL; the scheme-less bio "check my link bio.link/me"
yields null, and "visit https://example.com/me now" yields
"https://example.com/me". -/
theorem bioLink_requires_scheme :
    (∀ u r, u.bioLink = BioLinkField.absent → extractBioLink u = some r →
      ∃ b, extractBio u = some b ∧ hasSchemeUrl b) ∧
    extractBioLink (bioOnlyUser "check my link bio.link/me") = none ∧
    extractBioLink (bioOnlyUser "visit https://example.com/me now") =
      some "https://example.com/me" := by
  refine ⟨?_, by decide, by decide⟩
  intro u r habs h
  unfold extractBioLink at h
  have hobj : bioLinkFromObj u = none := by simp [bioLinkFromObj, habs]
  have hstr : bioLinkFromStr u = none := by simp [bioLinkFromStr, habs]
  rw [hobj, hstr] at h
  simp only at h
  unfold bioLinkFromText at h
  cases hbio : extractBio u with
  | none => rw [hbio] at h; cases h
  | some bio =>
    rw [hbio] at h
    simp only at h
    cases hm : bioUrlMatch bio.data with
    | none => rw [hm] at h; cases h
    | some m =>
      obtain ⟨pre, tk, rest, he, hsch, hdom⟩ := bioUrlMatch_sound bio.data m hm
      exact ⟨bio, rfl, pre, tk, rest, he, hsch, hdom⟩

/-- Witness for C9: the scheme-bearing scenario text does contain a
scheme-prefixed dotted-domain URL, as the theorem's general part
demands of any successful extraction. -/
theorem bioLink_requires_scheme_witness :
    ∃ b, extractBio (bioOnlyUser "visit https://example.com/me now") = some b ∧
      hasSchemeUrl b :=
  bioLink_requires_scheme.1 (bioOnlyUser "visit https://example.com/me now")
    "https://example.com/me" rfl (by decide)

end TikTokScraper
